import Mathlib

/-!
Verification development for the DShield → OpenCTI connector
(src/dshield_connector.py).

The connector is embedded shallowly: the OpenCTI store is modelled as an
explicit state (the set of labels it holds plus a log of every API call the
connector issues), and every fallible store call consults an `Env` of
injected outcomes, so that theorems can quantify over arbitrary
success/failure behaviour of the external store.  Python exceptions are
modelled with `Except Unit`; a `try/except` block in the source becomes a
`match` on the `Except` value at exactly the place the source catches.
-/

namespace DShield

/-- The Python method `str.lower` restricted to what the connector feeds it
(description strings and label values): character-wise lower-casing.
Defined by a plain `List Char` map so that it reduces in the kernel. -/
def lowerStr (s : String) : String := ⟨s.data.map Char.toLower⟩

/-- One raw feed record, a JSON object optionally carrying `ip` and
`description` string fields (the only keys the connector reads). -/
structure RawRecord where
  ip : Option String
  description : Option String
deriving DecidableEq, Repr

/-- A label held by the OpenCTI store: its string value and its store id. -/
structure StoreLabel where
  value : String
  id : Nat
deriving DecidableEq, Repr

/-- One entry of `output["objects"]` in `create_opencti_objects`. -/
structure PublishedObject where
  type : String
  value : String
  labels : List String
deriving DecidableEq, Repr

/-- The `output` dictionary built by `create_opencti_objects`: a `labels`
field (Python builds it from a set, so it is modelled as a `Finset`) and an
`objects` field. -/
structure Output where
  labels : Finset String
  objects : List PublishedObject
deriving DecidableEq

/-- Every externally observable action the connector performs: each store
API call it issues, each pacing sleep, and each error-level log line. -/
inductive Event where
  | labelList (search : String)
  | labelCreate (value : String) (color : String)
  | obsCreate (value : String)
  | addLabel (obsId : Nat) (labelId : Nat)
  | extRefCreate (sourceName : String) (url : String)
  | orgCreate (name : String)
  | sleep
  | logError (msg : String)
deriving DecidableEq, Repr

/-- World state of the connector: the labels the store currently holds,
fresh-id counters, the chronological event log, the artifact file written
by `save_to_json` (if any), and per-API call counters used to index the
injected outcomes in `Env`. -/
structure ConnState where
  storeLabels : List StoreLabel
  nextLabelId : Nat
  nextObsId : Nat
  events : List Event
  artifact : Option Output
  countLabelList : Nat
  countLabelCreate : Nat
  countObsCreate : Nat
  countAddLabel : Nat
deriving DecidableEq

def initState : ConnState :=
  { storeLabels := [], nextLabelId := 0, nextObsId := 0, events := [],
    artifact := none, countLabelList := 0, countLabelCreate := 0,
    countObsCreate := 0, countAddLabel := 0 }

/-- Outcome of one `stix_cyber_observable.create` call: a handle, a falsy
`None` result, or a raised exception. -/
inductive ObsOutcome where
  | ok
  | retNone
  | exn
deriving DecidableEq, Repr

/-- Injected behaviour of the external store: for the n-th call of each
fallible API, whether it raises. -/
structure Env where
  labelListFail : Nat → Bool
  labelCreateFail : Nat → Bool
  obsCreateOutcome : Nat → ObsOutcome
  addLabelFail : Nat → Bool
  saveFail : Bool

/-- An environment in which every store call succeeds. -/
def envOk : Env :=
  { labelListFail := fun _ => false, labelCreateFail := fun _ => false,
    obsCreateOutcome := fun _ => .ok, addLabelFail := fun _ => false,
    saveFail := false }

def emit (st : ConnState) (e : Event) : ConnState :=
  { st with events := st.events ++ [e] }

def log_error (st : ConnState) (msg : String) : ConnState :=
  emit st (.logError msg)

/-- The call `self.helper.api.label.list(search=label_value)`.  The search is
modelled as returning exactly the labels whose value matches the query
case-insensitively; `get_label` re-filters the result by case-insensitive
equality, so any superset model of the search (e.g. substring search) gives
`get_label` the same found/not-found outcome. -/
def label_list (env : Env) (st : ConnState) (search : String) :
    Except Unit (List StoreLabel) × ConnState :=
  let n := st.countLabelList
  let st1 := { st with events := st.events ++ [.labelList search],
                       countLabelList := n + 1 }
  if env.labelListFail n then (.error (), st1)
  else (.ok (st1.storeLabels.filter (fun l => lowerStr l.value == lowerStr search)), st1)

/-- `self.helper.api.label.create(value=..., color=...)`: on success the
store gains a label with the requested value and a fresh id. -/
def label_create (env : Env) (st : ConnState) (value color : String) :
    Except Unit Nat × ConnState :=
  let n := st.countLabelCreate
  let st1 := { st with events := st.events ++ [.labelCreate value color],
                       countLabelCreate := n + 1 }
  if env.labelCreateFail n then (.error (), st1)
  else
    (.ok st1.nextLabelId,
     { st1 with storeLabels := st1.storeLabels ++ [⟨value, st1.nextLabelId⟩],
                nextLabelId := st1.nextLabelId + 1 })

/-- `DShieldConnector.get_label`: list labels matching the value, return the
first case-insensitive match, else create a new label. -/
def get_label (env : Env) (st : ConnState) (label_value : String)
    (color : String := "#ffa500") : Except Unit Nat × ConnState :=
  match label_list env st label_value with
  | (.error u, st1) => (.error u, st1)
  | (.ok labels, st1) =>
    match labels.find? (fun l => lowerStr l.value == lowerStr label_value) with
    | some l => (.ok l.id, st1)
    | none => label_create env st1 label_value color

/-- `self.helper.api.stix_cyber_observable.add_label(id=..., label_id=...)`. -/
def add_label (env : Env) (st : ConnState) (obsId labelId : Nat) :
    Except Unit Unit × ConnState :=
  let n := st.countAddLabel
  let st1 := { st with events := st.events ++ [.addLabel obsId labelId],
                       countAddLabel := n + 1 }
  if env.addLabelFail n then (.error (), st1) else (.ok (), st1)

/-- The label loop of `create_observable`: for each label, a `try` block
resolves it via `get_label`, sleeps, and attaches it; on any exception the
failure is logged, a sleep is inserted, and the loop continues with the
next label. -/
def attach_labels (env : Env) (obsId : Nat) (observable_value : String) :
    ConnState → List String → ConnState
  | st, [] => st
  | st, label :: rest =>
    match get_label env st label with
    | (.error _, st1) =>
      let st2 := log_error st1 ("Failed to add label " ++ label ++ " to " ++ observable_value)
      attach_labels env obsId observable_value (emit st2 .sleep) rest
    | (.ok labelId, st1) =>
      let st2 := emit st1 .sleep
      match add_label env st2 obsId labelId with
      | (.error _, st3) =>
        let st4 := log_error st3 ("Failed to add label " ++ label ++ " to " ++ observable_value)
        attach_labels env obsId observable_value (emit st4 .sleep) rest
      | (.ok _, st3) => attach_labels env obsId observable_value st3 rest

/-- `DShieldConnector.create_observable`: issue the observable creation
call against the store, and if it returns a truthy handle and the label list is
non-empty, run the label loop.  An exception from the creation call itself
is NOT caught here; it propagates to the caller. -/
def create_observable (env : Env) (st : ConnState)
    (observable_key observable_value description observable_type : String)
    (external_reference_id : Nat) (labels : List String) :
    Except Unit (Option Nat) × ConnState :=
  let n := st.countObsCreate
  let st1 := { st with events := st.events ++ [.obsCreate observable_value],
                       countObsCreate := n + 1 }
  match env.obsCreateOutcome n with
  | .exn => (.error (), st1)
  | .retNone => (.ok none, st1)
  | .ok =>
    let obsId := st1.nextObsId
    let st2 := { st1 with nextObsId := obsId + 1 }
    (.ok (some obsId), attach_labels env obsId observable_value st2 labels)

/-- Outcome of the HTTP fetch in `fetch_dshield_data`: parsed data, or one
of the three exception classes the source catches. -/
inductive FetchOutcome where
  | success (data : List RawRecord)
  | requestFailure
  | parseFailure
  | otherFailure
deriving DecidableEq, Repr

/-- `DShieldConnector.fetch_dshield_data`: returns the parsed record list on
success; every caught exception is logged at error level and turned into an
empty list. -/
def fetch_dshield_data (fo : FetchOutcome) (st : ConnState) :
    List RawRecord × ConnState :=
  match fo with
  | .success data => (data, st)
  | .requestFailure => ([], log_error st "Error fetching DShield data")
  | .parseFailure => ([], log_error st "Error parsing DShield data")
  | .otherFailure => ([], log_error st "Unexpected error fetching DShield data")

/-- `DShieldConnector.extract_labels`: a Python set accumulating the
lower-cased `description` value of every record that has one. -/
def extract_labels (data : List RawRecord) : Finset String :=
  data.foldl
    (fun labels entry =>
      match entry.description with
      | some d => insert (lowerStr d) labels
      | none => labels)
    ∅

/-- The per-entry label list built in the publishing loop of
`create_opencti_objects`: the base label `"dshield"` plus the lower-cased
description when present. -/
def entry_labels (entry : RawRecord) : List String :=
  "dshield" :: (match entry.description with
    | some d => [lowerStr d]
    | none => [])

/-- `self.helper.api.external_reference.create(...)`: modelled as an
always-succeeding store call returning a reference handle. -/
def ext_ref_create (st : ConnState) (sourceName url : String) : Nat × ConnState :=
  (0, emit st (.extRefCreate sourceName url))

/-- The `for entry in data` loop of `create_opencti_objects`: entries
without an `ip` key are skipped silently; for the rest one observable is
created, and on a truthy creation result the entry is appended to
`output["objects"]`.  There is no per-entry exception handler, so an
exception from `create_observable` aborts the whole loop. -/
def process_entries (env : Env) (extRefId : Nat) :
    ConnState → List RawRecord → Output → Except Unit Output × ConnState
  | st, [], output => (.ok output, st)
  | st, entry :: rest, output =>
    match entry.ip with
    | none => process_entries env extRefId st rest output
    | some ip =>
      match create_observable env st "IPv4-Addr.value" ip
          ("DShield Intel Feed entry for " ++ ip) "IPv4-Addr" extRefId
          (entry_labels entry) with
      | (.error u, st1) => (.error u, st1)
      | (.ok (some _), st1) =>
        process_entries env extRefId st1 rest
          { output with objects := output.objects ++ [⟨"ipv4-addr", ip, entry_labels entry⟩] }
      | (.ok none, st1) => process_entries env extRefId st1 rest output

/-- `DShieldConnector.create_opencti_objects`.  The `test_mode` parameter is
accepted and, exactly as in the source, never consulted. -/
def create_opencti_objects (env : Env) (st : ConnState) (data : List RawRecord)
    (test_mode : Bool := false) : Except Unit Output × ConnState :=
  let labels := extract_labels data
  let output : Output := { labels := labels, objects := [] }
  let p := ext_ref_create st "dshield.org" "https://isc.sans.edu/api/intelfeed?json"
  process_entries env p.1 p.2 data output

/-- `DShieldConnector.save_to_json`: writes the artifact file; its own
exceptions are caught and logged. -/
def save_to_json (env : Env) (st : ConnState) (data : Output) : ConnState :=
  if env.saveFail then log_error st "Error saving data to dshield_export.json"
  else { st with artifact := some data }

/-- `DShieldConnector.run`: fetch, hard-stop on an empty result, build the
objects, save the artifact.  The outer `try` catches any exception escaping
`create_opencti_objects` and logs it; no artifact is written in that case. -/
def run (env : Env) (fo : FetchOutcome) (st : ConnState)
    (test_mode : Bool := false) : ConnState :=
  let p := fetch_dshield_data fo st
  if p.1.isEmpty then log_error p.2 "No data received from DShield"
  else
    match create_opencti_objects env p.2 p.1 test_mode with
    | (.error _, st2) => log_error st2 "Error in connector run"
    | (.ok output, st2) => save_to_json env st2 output

/-- Store side effects of `DShieldConnector.__init__`: the external
reference and the DShield organization are created unconditionally at
construction time. -/
def connector_init (st : ConnState) : ConnState :=
  emit (emit st (.extRefCreate "dshield.org" "https://dshield.org/"))
    (.orgCreate "DShield")

/-- The two command-line flags accepted by `main`. -/
structure Args where
  test : Bool
  debug : Bool
deriving DecidableEq, Repr

inductive LogLevel where
  | info
  | debug
deriving DecidableEq, Repr

/-- `main`: parse the flags, raise verbosity when `--debug` is set,
construct the connector (with its constructor-time store calls) and perform
exactly one run, passing `--test` through as `test_mode`. -/
def main (env : Env) (fo : FetchOutcome) (args : Args) : LogLevel × ConnState :=
  let lvl := if args.debug then LogLevel.debug else LogLevel.info
  let st := connector_init initState
  (lvl, run env fo st args.test)

/-- The label existence-check queries (`label.list` calls) in an event log,
in order, as their search strings. -/
def listQueriesOf (events : List Event) : List String :=
  events.filterMap (fun e => match e with | .labelList s => some s | _ => none)

/-- The label creation calls in an event log, in order, as their values. -/
def labelCreatesOf (events : List Event) : List String :=
  events.filterMap (fun e => match e with | .labelCreate v _ => some v | _ => none)

/-- The observable creation calls in an event log, in order, as their values. -/
def obsCreatesOf (events : List Event) : List String :=
  events.filterMap (fun e => match e with | .obsCreate v => some v | _ => none)

/-- The error-level log lines in an event log, in order. -/
def errorLogsOf (events : List Event) : List String :=
  events.filterMap (fun e => match e with | .logError m => some m | _ => none)

/-- The vocabulary as the words of the spec describe it: "the set of
lower-cased, non-empty `description` values present, with no duplicates".
Stated from the spec, to be compared with `extract_labels` from the source. -/
def specVocabulary (data : List RawRecord) : Finset String :=
  (((data.filterMap RawRecord.description).map lowerStr).filter (fun s => s != "")).toFinset

/-! ### Basic facts about the event projections -/

@[simp] theorem listQueriesOf_nil : listQueriesOf [] = [] := rfl

@[simp] theorem obsCreatesOf_nil : obsCreatesOf [] = [] := rfl

@[simp] theorem labelCreatesOf_nil : labelCreatesOf [] = [] := rfl

@[simp] theorem errorLogsOf_nil : errorLogsOf [] = [] := rfl

@[simp] theorem listQueriesOf_cons (e : Event) (es : List Event) :
    listQueriesOf (e :: es)
      = (match e with | .labelList s => [s] | _ => []) ++ listQueriesOf es := by
  cases e <;> rfl

@[simp] theorem obsCreatesOf_cons (e : Event) (es : List Event) :
    obsCreatesOf (e :: es)
      = (match e with | .obsCreate v => [v] | _ => []) ++ obsCreatesOf es := by
  cases e <;> rfl

@[simp] theorem labelCreatesOf_cons (e : Event) (es : List Event) :
    labelCreatesOf (e :: es)
      = (match e with | .labelCreate v c => [v] | _ => []) ++ labelCreatesOf es := by
  cases e <;> rfl

@[simp] theorem errorLogsOf_cons (e : Event) (es : List Event) :
    errorLogsOf (e :: es)
      = (match e with | .logError m => [m] | _ => []) ++ errorLogsOf es := by
  cases e <;> rfl

@[simp] theorem listQueriesOf_append (a b : List Event) :
    listQueriesOf (a ++ b) = listQueriesOf a ++ listQueriesOf b := by
  simp [listQueriesOf]

@[simp] theorem obsCreatesOf_append (a b : List Event) :
    obsCreatesOf (a ++ b) = obsCreatesOf a ++ obsCreatesOf b := by
  simp [obsCreatesOf]

@[simp] theorem labelCreatesOf_append (a b : List Event) :
    labelCreatesOf (a ++ b) = labelCreatesOf a ++ labelCreatesOf b := by
  simp [labelCreatesOf]

@[simp] theorem errorLogsOf_append (a b : List Event) :
    errorLogsOf (a ++ b) = errorLogsOf a ++ errorLogsOf b := by
  simp [errorLogsOf]

/-! ### Vocabulary extraction (claim C6) -/

theorem extract_labels_foldl (data : List RawRecord) :
    ∀ s : Finset String,
      data.foldl
        (fun labels entry =>
          match entry.description with
          | some d => insert (lowerStr d) labels
          | none => labels)
        s
      = s ∪ ((data.filterMap RawRecord.description).map lowerStr).toFinset := by
  induction data with
  | nil => intro s; simp
  | cons e rest ih =>
    intro s
    cases hd : e.description with
    | none => simp [hd, List.filterMap_cons, ih]
    | some d =>
      simp only [List.foldl_cons, hd, List.filterMap_cons, ih, List.map_cons, List.toFinset_cons]
      rw [Finset.insert_union, Finset.union_insert]

theorem extract_labels_eq (data : List RawRecord) :
    extract_labels data = ((data.filterMap RawRecord.description).map lowerStr).toFinset := by
  unfold extract_labels
  rw [extract_labels_foldl]
  simp

/-- C6, counterexample: a record whose description is the empty string
contributes the empty string to the vocabulary built by `extract_labels`,
whereas "the set of lower-cased, non-empty description values" excludes it,
so the two disagree on this input. -/
theorem C6_counterexample :
    extract_labels [⟨none, some ""⟩] ≠ specVocabulary [⟨none, some ""⟩] := by
  decide

/-- C6, amended: for every input record list, `extract_labels` returns
exactly the set of lower-cased description values occurring in the records
(empty-string descriptions included), with no duplicates; records without a
description contribute nothing, and the set is invariant under permutation
of the input. -/
theorem C6_vocabulary (data data' : List RawRecord) (h : data.Perm data') :
    extract_labels data = ((data.filterMap RawRecord.description).map lowerStr).toFinset ∧
    extract_labels data = extract_labels data' := by
  refine ⟨extract_labels_eq data, ?_⟩
  rw [extract_labels_eq data, extract_labels_eq data']
  exact List.toFinset_eq_of_perm _ _ ((h.filterMap RawRecord.description).map lowerStr)

/-- Witness for C6: a concrete two-record list and a permutation of it. -/
theorem C6_vocabulary_witness :
    extract_labels [RawRecord.mk none (some "Scanner"), RawRecord.mk (some "1.2.3.4") (some "Malware")]
      = (([RawRecord.mk none (some "Scanner"), RawRecord.mk (some "1.2.3.4") (some "Malware")].filterMap
            RawRecord.description).map lowerStr).toFinset ∧
    extract_labels [RawRecord.mk none (some "Scanner"), RawRecord.mk (some "1.2.3.4") (some "Malware")]
      = extract_labels [RawRecord.mk (some "1.2.3.4") (some "Malware"), RawRecord.mk none (some "Scanner")] :=
  C6_vocabulary _ _ (by decide)

/-! ### Fetch stage (claims C9, C10) -/

/-- C10, counterexample: a network failure makes `fetch_dshield_data`
return the empty list — exactly the value a successful fetch of an empty
feed returns — rather than an error outcome, so the caller cannot tell the
two apart from the returned value. -/
theorem C10_counterexample :
    fetch_dshield_data .requestFailure initState
       = ([], log_error initState "Error fetching DShield data") ∧
    (fetch_dshield_data .requestFailure initState).1
       = (fetch_dshield_data (.success []) initState).1 := by
  exact ⟨rfl, rfl⟩

/-- C10, amended: on success the fetch returns the full parsed record list;
on a network, parse, or other failure it logs the error and returns the
empty list, the same caller-visible value as a successful empty fetch — no
distinguishable error outcome is surfaced. -/
theorem C10_fetch_behaviour (st : ConnState) :
    (∀ data, fetch_dshield_data (.success data) st = (data, st)) ∧
    fetch_dshield_data .requestFailure st = ([], log_error st "Error fetching DShield data") ∧
    fetch_dshield_data .parseFailure st = ([], log_error st "Error parsing DShield data") ∧
    fetch_dshield_data .otherFailure st = ([], log_error st "Unexpected error fetching DShield data") :=
  ⟨fun _ => rfl, rfl, rfl, rfl⟩

/-- C9: when the fetch yields an empty record list (a successful empty
feed, or any fetch failure, which the source maps to the empty list), the
run stops at the fetch stage: no artifact is written, no observable
creation call is issued, and no label query or creation call is issued. -/
theorem C9_empty_fetch_halts (env : Env) (fo : FetchOutcome) (st : ConnState) (tm : Bool)
    (h : (fetch_dshield_data fo st).1 = []) :
    (run env fo st tm).artifact = st.artifact ∧
    obsCreatesOf (run env fo st tm).events = obsCreatesOf st.events ∧
    listQueriesOf (run env fo st tm).events = listQueriesOf st.events ∧
    labelCreatesOf (run env fo st tm).events = labelCreatesOf st.events := by
  cases fo with
  | success data =>
    have hd : data = [] := h
    subst hd
    refine ⟨rfl, ?_, ?_, ?_⟩ <;>
      simp [run, fetch_dshield_data, log_error, emit, obsCreatesOf, listQueriesOf,
        labelCreatesOf, List.filterMap_append]
  | requestFailure =>
    refine ⟨rfl, ?_, ?_, ?_⟩ <;>
      simp [run, fetch_dshield_data, log_error, emit, obsCreatesOf, listQueriesOf,
        labelCreatesOf, List.filterMap_append]
  | parseFailure =>
    refine ⟨rfl, ?_, ?_, ?_⟩ <;>
      simp [run, fetch_dshield_data, log_error, emit, obsCreatesOf, listQueriesOf,
        labelCreatesOf, List.filterMap_append]
  | otherFailure =>
    refine ⟨rfl, ?_, ?_, ?_⟩ <;>
      simp [run, fetch_dshield_data, log_error, emit, obsCreatesOf, listQueriesOf,
        labelCreatesOf, List.filterMap_append]

/-- Witness for C9: a concrete failing fetch from the initial state. -/
theorem C9_empty_fetch_halts_witness :
    (run envOk .requestFailure initState false).artifact = initState.artifact ∧
    obsCreatesOf (run envOk .requestFailure initState false).events = obsCreatesOf initState.events ∧
    listQueriesOf (run envOk .requestFailure initState false).events = listQueriesOf initState.events ∧
    labelCreatesOf (run envOk .requestFailure initState false).events = labelCreatesOf initState.events :=
  C9_empty_fetch_halts envOk .requestFailure initState false rfl

/-! ### State shape of the label operations -/

theorem get_label_state (env : Env) (st : ConnState) (t c : String) :
    ((get_label env st t c).2.events = st.events ++ [Event.labelList t] ∨
     (get_label env st t c).2.events = st.events ++ [Event.labelList t, Event.labelCreate t c]) ∧
    (get_label env st t c).2.artifact = st.artifact ∧
    ((get_label env st t c).2.storeLabels = st.storeLabels ∨
     ∃ lid, (get_label env st t c).2.storeLabels = st.storeLabels ++ [⟨t, lid⟩]) := by
  unfold get_label label_list label_create
  cases hf : env.labelListFail st.countLabelList with
  | true => simp [hf]
  | false =>
    simp only [hf, Bool.false_eq_true, if_false]
    cases hfind : (st.storeLabels.filter
        (fun l => lowerStr l.value == lowerStr t)).find?
        (fun l => lowerStr l.value == lowerStr t) with
    | some l => simp [hfind]
    | none =>
      simp only [hfind]
      cases hcf : env.labelCreateFail st.countLabelCreate with
      | true => simp [hcf]
      | false => simp [hcf]

theorem get_label_listQueries (env : Env) (st : ConnState) (t c : String) :
    listQueriesOf (get_label env st t c).2.events = listQueriesOf st.events ++ [t] := by
  rcases (get_label_state env st t c).1 with h | h <;>
    simp [h, listQueriesOf_append, listQueriesOf, List.filterMap_cons]

theorem get_label_obsCreates (env : Env) (st : ConnState) (t c : String) :
    obsCreatesOf (get_label env st t c).2.events = obsCreatesOf st.events := by
  rcases (get_label_state env st t c).1 with h | h <;>
    simp [h, obsCreatesOf_append, obsCreatesOf, List.filterMap_cons]

theorem add_label_state (env : Env) (st : ConnState) (obsId labelId : Nat) :
    (add_label env st obsId labelId).2.events = st.events ++ [Event.addLabel obsId labelId] ∧
    (add_label env st obsId labelId).2.artifact = st.artifact ∧
    (add_label env st obsId labelId).2.storeLabels = st.storeLabels := by
  unfold add_label
  cases h : env.addLabelFail st.countAddLabel <;> simp [h]

/-- The label loop never raises, attempts one existence check per label in
order, issues no observable creation call, and leaves the artifact alone —
for every injected failure behaviour of the store. -/
theorem attach_labels_state (env : Env) (obsId : Nat) (v : String) :
    ∀ (labels : List String) (st : ConnState),
      listQueriesOf (attach_labels env obsId v st labels).events
          = listQueriesOf st.events ++ labels ∧
      obsCreatesOf (attach_labels env obsId v st labels).events = obsCreatesOf st.events ∧
      (attach_labels env obsId v st labels).artifact = st.artifact := by
  intro labels
  induction labels with
  | nil => intro st; exact ⟨by simp [attach_labels], rfl, rfl⟩
  | cons label rest ih =>
    intro st
    have hart := (get_label_state env st label "#ffa500").2.1
    have hlq := get_label_listQueries env st label "#ffa500"
    have hobs := get_label_obsCreates env st label "#ffa500"
    rcases hq : get_label env st label "#ffa500" with ⟨r, st1⟩
    rw [hq] at hart hlq hobs
    simp only at hart hlq hobs
    cases r with
    | error u =>
      simp only [attach_labels, hq]
      obtain ⟨ihq, ihobs, ihart⟩ :=
        ih (emit (log_error st1 ("Failed to add label " ++ label ++ " to " ++ v)) .sleep)
      refine ⟨?_, ?_, ?_⟩
      · rw [ihq]; simp [emit, log_error, hlq]
      · rw [ihobs]; simp [emit, log_error, hobs]
      · rw [ihart]; simp [emit, log_error, hart]
    | ok labelId =>
      simp only [attach_labels, hq]
      have hadd := add_label_state env (emit st1 .sleep) obsId labelId
      rcases ha : add_label env (emit st1 .sleep) obsId labelId with ⟨r2, st3⟩
      rw [ha] at hadd
      obtain ⟨haev, haart, _⟩ := hadd
      simp only [emit] at haev haart
      cases r2 with
      | error u2 =>
        obtain ⟨ihq, ihobs, ihart⟩ :=
          ih (emit (log_error st3 ("Failed to add label " ++ label ++ " to " ++ v)) .sleep)
        refine ⟨?_, ?_, ?_⟩
        · rw [ihq]; simp [emit, log_error, haev, hlq]
        · rw [ihobs]; simp [emit, log_error, haev, hobs]
        · rw [ihart]; simp [emit, log_error, haart, hart]
      | ok u2 =>
        obtain ⟨ihq, ihobs, ihart⟩ := ih st3
        refine ⟨?_, ?_, ?_⟩
        · rw [ihq]; simp [haev, emit, hlq]
        · rw [ihobs]; simp [haev, emit, hobs]
        · rw [ihart]; simp [haart, emit, hart]

theorem attach_labels_listQueries (env : Env) (obsId : Nat) (v : String)
    (labels : List String) (st : ConnState) :
    listQueriesOf (attach_labels env obsId v st labels).events
      = listQueriesOf st.events ++ labels :=
  (attach_labels_state env obsId v labels st).1

theorem attach_labels_obsCreates (env : Env) (obsId : Nat) (v : String)
    (labels : List String) (st : ConnState) :
    obsCreatesOf (attach_labels env obsId v st labels).events = obsCreatesOf st.events :=
  (attach_labels_state env obsId v labels st).2.1

theorem attach_labels_artifact (env : Env) (obsId : Nat) (v : String)
    (labels : List String) (st : ConnState) :
    (attach_labels env obsId v st labels).artifact = st.artifact :=
  (attach_labels_state env obsId v labels st).2.2

/-- State shape of one observable creation: exactly one creation call is
issued; an injected exception or falsy result stops before the label loop;
on success the handle is returned and every label is attempted. -/
theorem create_observable_state (env : Env) (st : ConnState)
    (k v d ty : String) (ext : Nat) (labels : List String) :
    obsCreatesOf (create_observable env st k v d ty ext labels).2.events
        = obsCreatesOf st.events ++ [v] ∧
    (create_observable env st k v d ty ext labels).2.artifact = st.artifact ∧
    (env.obsCreateOutcome st.countObsCreate = .exn →
       create_observable env st k v d ty ext labels
         = (.error (), { st with events := st.events ++ [.obsCreate v],
                                 countObsCreate := st.countObsCreate + 1 })) ∧
    (env.obsCreateOutcome st.countObsCreate = .retNone →
       create_observable env st k v d ty ext labels
         = (.ok none, { st with events := st.events ++ [.obsCreate v],
                                countObsCreate := st.countObsCreate + 1 })) ∧
    (env.obsCreateOutcome st.countObsCreate = .ok →
       (create_observable env st k v d ty ext labels).1 = .ok (some st.nextObsId) ∧
       listQueriesOf (create_observable env st k v d ty ext labels).2.events
         = listQueriesOf st.events ++ labels) := by
  cases ho : env.obsCreateOutcome st.countObsCreate with
  | exn =>
    refine ⟨?_, ?_, fun _ => ?_, fun hn => ?_, fun hk => ?_⟩
    · simp [create_observable, ho]
    · simp [create_observable, ho]
    · simp [create_observable, ho]
    · cases hn
    · cases hk
  | retNone =>
    refine ⟨?_, ?_, fun hx => ?_, fun _ => ?_, fun hk => ?_⟩
    · simp [create_observable, ho]
    · simp [create_observable, ho]
    · cases hx
    · simp [create_observable, ho]
    · cases hk
  | ok =>
    refine ⟨?_, ?_, fun hx => ?_, fun hn => ?_, fun _ => ⟨?_, ?_⟩⟩
    · simp [create_observable, ho, attach_labels_obsCreates]
    · simp [create_observable, ho, attach_labels_artifact]
    · cases hx
    · cases hn
    · simp [create_observable, ho]
    · simp [create_observable, ho, attach_labels_listQueries]

/-! ### Tag registry existence checks (claim C3) -/

/-- C3, counterexample: in a run over two records sharing description "x",
the store is asked to list labels matching "x" twice — the claimed
at-most-one existence check per TagName per run is violated. -/
theorem C3_counterexample :
    ¬ ((listQueriesOf (run envOk
          (.success [⟨some "1.1.1.1", some "x"⟩, ⟨some "2.2.2.2", some "x"⟩])
          (connector_init initState) false).events).count "x" ≤ 1) := by
  decide

/-- C3, amended: the registry keeps no cache — every resolution of a
TagName issues exactly one label existence-check query against the store,
so a TagName resolved k times in a run incurs k existence checks (creation
is still skipped whenever a matching label already exists, see C2). -/
theorem C3_no_cache (env : Env) (st : ConnState) (t c : String) :
    listQueriesOf (get_label env st t c).2.events = listQueriesOf st.events ++ [t] :=
  get_label_listQueries env st t c

/-! ### Record normalization (claim C7) -/

/-- C7: a record without an ip key is skipped with no store call, no
published entry and no log line (the processing state is unchanged); a
record with an ip incurs exactly one observable creation call, its label
set is the base label "dshield" plus the lower-cased description when one
is present, and a truthy creation result publishes exactly that entry. -/
theorem C7_record_normalization (env : Env) (extRefId : Nat) (st : ConnState)
    (rest : List RawRecord) (output : Output) (entry : RawRecord) :
    (entry.ip = none →
       process_entries env extRefId st (entry :: rest) output
         = process_entries env extRefId st rest output) ∧
    (∀ ip, entry.ip = some ip →
       obsCreatesOf (create_observable env st "IPv4-Addr.value" ip
           ("DShield Intel Feed entry for " ++ ip) "IPv4-Addr" extRefId
           (entry_labels entry)).2.events = obsCreatesOf st.events ++ [ip] ∧
       (entry_labels entry).toFinset
         = insert "dshield" ((entry.description.toList.map lowerStr).toFinset) ∧
       process_entries env extRefId st (entry :: rest) output
         = (match create_observable env st "IPv4-Addr.value" ip
               ("DShield Intel Feed entry for " ++ ip) "IPv4-Addr" extRefId
               (entry_labels entry) with
            | (.error u, st1) => (.error u, st1)
            | (.ok (some _), st1) =>
              process_entries env extRefId st1 rest
                { output with objects := output.objects ++ [⟨"ipv4-addr", ip, entry_labels entry⟩] }
            | (.ok none, st1) => process_entries env extRefId st1 rest output)) := by
  obtain ⟨eip, ed⟩ := entry
  constructor
  · intro h
    cases h
    rfl
  · intro ip hip
    cases hip
    refine ⟨(create_observable_state env st _ ip _ _ extRefId _).1, ?_, rfl⟩
    cases ed with
    | none => simp [entry_labels]
    | some d => simp [entry_labels]

/-- Witness for C7: the concrete record from the spec example. -/
theorem C7_record_normalization_witness :
    obsCreatesOf (create_observable envOk initState "IPv4-Addr.value" "1.2.3.4"
        ("DShield Intel Feed entry for " ++ "1.2.3.4") "IPv4-Addr" 0
        (entry_labels ⟨some "1.2.3.4", some "botnet"⟩)).2.events
      = obsCreatesOf initState.events ++ ["1.2.3.4"] ∧
    (entry_labels ⟨some "1.2.3.4", some "botnet"⟩).toFinset
      = insert "dshield" (((RawRecord.mk (some "1.2.3.4") (some "botnet")).description.toList.map lowerStr).toFinset) ∧
    process_entries envOk 0 initState [⟨some "1.2.3.4", some "botnet"⟩] ⟨∅, []⟩
      = (match create_observable envOk initState "IPv4-Addr.value" "1.2.3.4"
            ("DShield Intel Feed entry for " ++ "1.2.3.4") "IPv4-Addr" 0
            (entry_labels ⟨some "1.2.3.4", some "botnet"⟩) with
         | (.error u, st1) => (.error u, st1)
         | (.ok (some _), st1) =>
           process_entries envOk 0 st1 []
             { (⟨∅, []⟩ : Output) with
               objects := (⟨∅, []⟩ : Output).objects ++ [⟨"ipv4-addr", "1.2.3.4", entry_labels ⟨some "1.2.3.4", some "botnet"⟩⟩] }
         | (.ok none, st1) => process_entries envOk 0 st1 [] ⟨∅, []⟩) :=
  (C7_record_normalization envOk 0 initState [] ⟨∅, []⟩ ⟨some "1.2.3.4", some "botnet"⟩).2
    "1.2.3.4" rfl

/-! ### Per-tag failure isolation (claim C5) -/

/-- A store environment in which every tag attachment call raises. -/
def envAttachFail : Env := { envOk with addLabelFail := fun _ => true }

/-- C5: whatever the injected tag resolution and attachment failures, if
the creation call for a record succeeds then the label loop still attempts
an existence check for every one of its tags, the creation call returns
the handle, and the record is appended to the published objects. -/
theorem C5_tag_failure_isolation (env : Env) (st : ConnState) (ext : Nat)
    (ip : String) (d : Option String) (rest : List RawRecord) (output : Output)
    (h : env.obsCreateOutcome st.countObsCreate = .ok) :
    (create_observable env st "IPv4-Addr.value" ip ("DShield Intel Feed entry for " ++ ip)
        "IPv4-Addr" ext (entry_labels ⟨some ip, d⟩)).1 = .ok (some st.nextObsId) ∧
    listQueriesOf (create_observable env st "IPv4-Addr.value" ip
        ("DShield Intel Feed entry for " ++ ip) "IPv4-Addr" ext
        (entry_labels ⟨some ip, d⟩)).2.events
      = listQueriesOf st.events ++ entry_labels ⟨some ip, d⟩ ∧
    process_entries env ext st (⟨some ip, d⟩ :: rest) output
      = process_entries env ext
          (create_observable env st "IPv4-Addr.value" ip ("DShield Intel Feed entry for " ++ ip)
            "IPv4-Addr" ext (entry_labels ⟨some ip, d⟩)).2 rest
          { output with objects := output.objects ++ [⟨"ipv4-addr", ip, entry_labels ⟨some ip, d⟩⟩] } := by
  obtain ⟨hres, hq⟩ := (create_observable_state env st "IPv4-Addr.value" ip
    ("DShield Intel Feed entry for " ++ ip) "IPv4-Addr" ext (entry_labels ⟨some ip, d⟩)).2.2.2.2 h
  refine ⟨hres, hq, ?_⟩
  simp only [process_entries]
  rcases hc : create_observable env st "IPv4-Addr.value" ip
      ("DShield Intel Feed entry for " ++ ip) "IPv4-Addr" ext (entry_labels ⟨some ip, d⟩)
    with ⟨r, st1⟩
  rw [hc] at hres
  simp only at hres
  subst hres
  rfl

/-- Witness for C5: every attachment call fails, the observable is still
created, both tags are still attempted, and the entry is still published. -/
theorem C5_tag_failure_isolation_witness :
    (create_observable envAttachFail initState "IPv4-Addr.value" "1.2.3.4"
        ("DShield Intel Feed entry for " ++ "1.2.3.4") "IPv4-Addr" 0
        (entry_labels ⟨some "1.2.3.4", some "botnet"⟩)).1 = .ok (some initState.nextObsId) ∧
    listQueriesOf (create_observable envAttachFail initState "IPv4-Addr.value" "1.2.3.4"
        ("DShield Intel Feed entry for " ++ "1.2.3.4") "IPv4-Addr" 0
        (entry_labels ⟨some "1.2.3.4", some "botnet"⟩)).2.events
      = listQueriesOf initState.events ++ entry_labels ⟨some "1.2.3.4", some "botnet"⟩ ∧
    process_entries envAttachFail 0 initState [⟨some "1.2.3.4", some "botnet"⟩] ⟨∅, []⟩
      = process_entries envAttachFail 0
          (create_observable envAttachFail initState "IPv4-Addr.value" "1.2.3.4"
            ("DShield Intel Feed entry for " ++ "1.2.3.4") "IPv4-Addr" 0
            (entry_labels ⟨some "1.2.3.4", some "botnet"⟩)).2 []
          { (⟨∅, []⟩ : Output) with
            objects := (⟨∅, []⟩ : Output).objects
              ++ [⟨"ipv4-addr", "1.2.3.4", entry_labels ⟨some "1.2.3.4", some "botnet"⟩⟩] } :=
  C5_tag_failure_isolation envAttachFail initState 0 "1.2.3.4" (some "botnet") [] ⟨∅, []⟩ rfl

/-! ### Artifact preservation through the pipeline -/

theorem fetch_artifact (fo : FetchOutcome) (st : ConnState) :
    (fetch_dshield_data fo st).2.artifact = st.artifact := by
  cases fo <;> rfl

theorem process_entries_artifact (env : Env) (ext : Nat) :
    ∀ (data : List RawRecord) (st : ConnState) (output : Output),
      (process_entries env ext st data output).2.artifact = st.artifact := by
  intro data
  induction data with
  | nil => intro st output; rfl
  | cons entry rest ih =>
    intro st output
    obtain ⟨eip, ed⟩ := entry
    cases eip with
    | none => exact ih st output
    | some ip =>
      have hart := (create_observable_state env st "IPv4-Addr.value" ip
        ("DShield Intel Feed entry for " ++ ip) "IPv4-Addr" ext
        (entry_labels ⟨some ip, ed⟩)).2.1
      simp only [process_entries]
      rcases hc : create_observable env st "IPv4-Addr.value" ip
          ("DShield Intel Feed entry for " ++ ip) "IPv4-Addr" ext
          (entry_labels ⟨some ip, ed⟩) with ⟨r, st1⟩
      rw [hc] at hart
      cases r with
      | error u => exact hart
      | ok o =>
        cases o with
        | some n =>
          show (process_entries env ext st1 rest _).2.artifact = st.artifact
          rw [ih]; exact hart
        | none =>
          show (process_entries env ext st1 rest _).2.artifact = st.artifact
          rw [ih]; exact hart

theorem create_opencti_objects_artifact (env : Env) (st : ConnState)
    (data : List RawRecord) (tm : Bool) :
    (create_opencti_objects env st data tm).2.artifact = st.artifact := by
  simp only [create_opencti_objects]
  rw [process_entries_artifact]
  rfl

/-! ### Exceptions at the per-record boundary (claim C1) -/

/-- A store environment whose first observable creation call raises. -/
def envFirstCreateRaises : Env :=
  { envOk with obsCreateOutcome := fun n => if n = 0 then .exn else .ok }

/-- A store environment whose observable creation calls return None. -/
def envCreateRetNone : Env :=
  { envOk with obsCreateOutcome := fun _ => .retNone }

/-- C1, counterexample: with two ip records and the first creation call
raising, the publishing loop aborts — the second record never receives a
creation call, the artifact is not written, and the exception is logged at
the run boundary — contradicting the claim that the run proceeds to the
next record and still writes the summary. -/
theorem C1_counterexample :
    obsCreatesOf (run envFirstCreateRaises
        (.success [⟨some "1.1.1.1", none⟩, ⟨some "2.2.2.2", none⟩])
        (connector_init initState) false).events = ["1.1.1.1"] ∧
    (run envFirstCreateRaises
        (.success [⟨some "1.1.1.1", none⟩, ⟨some "2.2.2.2", none⟩])
        (connector_init initState) false).artifact = none ∧
    errorLogsOf (run envFirstCreateRaises
        (.success [⟨some "1.1.1.1", none⟩, ⟨some "2.2.2.2", none⟩])
        (connector_init initState) false).events = ["Error in connector run"] := by
  decide

/-- C1, amended: a falsy creation result is tolerated per record — the
record is skipped and the loop proceeds; but an exception from the
creation call is not caught inside the publishing loop: it aborts the loop
with only that creation call issued, is caught only at the run boundary
where it is logged, and the summary artifact is never written. -/
theorem C1_exception_aborts_run :
    (∀ (env : Env) (ext : Nat) (st : ConnState) (ip : String) (d : Option String)
        (rest : List RawRecord) (output : Output),
       env.obsCreateOutcome st.countObsCreate = .exn →
       process_entries env ext st (⟨some ip, d⟩ :: rest) output
         = (.error (), { st with events := st.events ++ [.obsCreate ip],
                                 countObsCreate := st.countObsCreate + 1 })) ∧
    (∀ (env : Env) (ext : Nat) (st : ConnState) (ip : String) (d : Option String)
        (rest : List RawRecord) (output : Output),
       env.obsCreateOutcome st.countObsCreate = .retNone →
       process_entries env ext st (⟨some ip, d⟩ :: rest) output
         = process_entries env ext
             { st with events := st.events ++ [.obsCreate ip],
                       countObsCreate := st.countObsCreate + 1 } rest output) ∧
    (∀ (env : Env) (fo : FetchOutcome) (st : ConnState) (tm : Bool),
       (fetch_dshield_data fo st).1 ≠ [] →
       (create_opencti_objects env (fetch_dshield_data fo st).2
           (fetch_dshield_data fo st).1 tm).1 = .error () →
       (run env fo st tm).artifact = st.artifact ∧
       errorLogsOf (run env fo st tm).events
         = errorLogsOf (create_opencti_objects env (fetch_dshield_data fo st).2
             (fetch_dshield_data fo st).1 tm).2.events ++ ["Error in connector run"]) := by
  refine ⟨?_, ?_, ?_⟩
  · intro env ext st ip d rest output h
    have hc := (create_observable_state env st "IPv4-Addr.value" ip
      ("DShield Intel Feed entry for " ++ ip) "IPv4-Addr" ext
      (entry_labels ⟨some ip, d⟩)).2.2.1 h
    simp only [process_entries]
    rw [hc]
  · intro env ext st ip d rest output h
    have hc := (create_observable_state env st "IPv4-Addr.value" ip
      ("DShield Intel Feed entry for " ++ ip) "IPv4-Addr" ext
      (entry_labels ⟨some ip, d⟩)).2.2.2.1 h
    simp only [process_entries]
    rw [hc]
  · intro env fo st tm hne herr
    have hempty : (fetch_dshield_data fo st).1.isEmpty = false := by
      cases hd : (fetch_dshield_data fo st).1 with
      | nil => exact absurd hd hne
      | cons a l => rfl
    have hart2 : (create_opencti_objects env (fetch_dshield_data fo st).2
        (fetch_dshield_data fo st).1 tm).2.artifact = st.artifact := by
      rw [create_opencti_objects_artifact, fetch_artifact]
    simp only [run, hempty, Bool.false_eq_true, if_false]
    rcases hc : create_opencti_objects env (fetch_dshield_data fo st).2
        (fetch_dshield_data fo st).1 tm with ⟨r, st2⟩
    rw [hc] at herr hart2
    cases r with
    | error u =>
      exact ⟨hart2, by simp [log_error, emit]⟩
    | ok output => cases herr

/-- Witness for C1: concrete runs exercising all three amended clauses. -/
theorem C1_exception_aborts_run_witness :
    process_entries envFirstCreateRaises 0 initState [⟨some "9.9.9.9", none⟩] ⟨∅, []⟩
      = (.error (), { initState with events := initState.events ++ [.obsCreate "9.9.9.9"],
                                     countObsCreate := initState.countObsCreate + 1 }) ∧
    process_entries envCreateRetNone 0 initState [⟨some "9.9.9.9", none⟩] ⟨∅, []⟩
      = process_entries envCreateRetNone 0
          { initState with events := initState.events ++ [.obsCreate "9.9.9.9"],
                           countObsCreate := initState.countObsCreate + 1 } [] ⟨∅, []⟩ ∧
    ((run envFirstCreateRaises (.success [⟨some "9.9.9.9", none⟩]) initState false).artifact
        = initState.artifact ∧
     errorLogsOf (run envFirstCreateRaises (.success [⟨some "9.9.9.9", none⟩]) initState false).events
       = errorLogsOf (create_opencti_objects envFirstCreateRaises
           (fetch_dshield_data (.success [⟨some "9.9.9.9", none⟩]) initState).2
           (fetch_dshield_data (.success [⟨some "9.9.9.9", none⟩]) initState).1 false).2.events
         ++ ["Error in connector run"]) :=
  ⟨C1_exception_aborts_run.1 envFirstCreateRaises 0 initState "9.9.9.9" none [] ⟨∅, []⟩ rfl,
   C1_exception_aborts_run.2.1 envCreateRetNone 0 initState "9.9.9.9" none [] ⟨∅, []⟩ rfl,
   C1_exception_aborts_run.2.2 envFirstCreateRaises (.success [⟨some "9.9.9.9", none⟩])
     initState false (by decide) rfl⟩

/-! ### Published values come from record ip fields (claim C8) -/

/-- C8, counterexample: a record whose ip field is the empty string is not
skipped — the key is present, so the connector submits an observable whose
value is the empty string and records it in the summary artifact,
contradicting the claimed non-empty-value invariant. -/
theorem C8_counterexample :
    (run envOk (.success [⟨some "", none⟩]) (connector_init initState) false).artifact
      = some ⟨∅, [⟨"ipv4-addr", "", ["dshield"]⟩]⟩ ∧
    obsCreatesOf (run envOk (.success [⟨some "", none⟩])
        (connector_init initState) false).events = [""] := by
  decide

/-- C8, amended: every object accumulated by the publishing loop either
was already in the accumulator or takes its value verbatim from the ip
field of some input record — records lacking an ip key contribute nothing,
but a present-and-empty ip yields an entry whose value is empty. -/
theorem C8_published_values (env : Env) (ext : Nat) :
    ∀ (data : List RawRecord) (st : ConnState) (output out' : Output) (stF : ConnState),
      process_entries env ext st data output = (.ok out', stF) →
      ∀ o ∈ out'.objects, o ∈ output.objects ∨ ∃ e ∈ data, e.ip = some o.value := by
  intro data
  induction data with
  | nil =>
    intro st output out' stF h o ho
    injection h with h1 h2
    injection h1 with h1
    subst h1
    exact Or.inl ho
  | cons entry rest ih =>
    intro st output out' stF h o ho
    obtain ⟨eip, ed⟩ := entry
    cases eip with
    | none =>
      rcases ih st output out' stF h o ho with hl | ⟨e, he, hv⟩
      · exact Or.inl hl
      · exact Or.inr ⟨e, List.mem_cons_of_mem _ he, hv⟩
    | some ip =>
      simp only [process_entries] at h
      rcases hc : create_observable env st "IPv4-Addr.value" ip
          ("DShield Intel Feed entry for " ++ ip) "IPv4-Addr" ext
          (entry_labels ⟨some ip, ed⟩) with ⟨r, st1⟩
      rw [hc] at h
      cases r with
      | error u => simp at h
      | ok o2 =>
        cases o2 with
        | some n =>
          rcases ih st1 _ out' stF h o ho with hl | ⟨e, he, hv⟩
          · rcases List.mem_append.mp hl with h1 | h2
            · exact Or.inl h1
            · have hoeq : o = ⟨"ipv4-addr", ip, entry_labels ⟨some ip, ed⟩⟩ := by
                simpa using h2
              exact Or.inr ⟨⟨some ip, ed⟩, List.mem_cons_self _ _, by rw [hoeq]⟩
          · exact Or.inr ⟨e, List.mem_cons_of_mem _ he, hv⟩
        | none =>
          rcases ih st1 output out' stF h o ho with hl | ⟨e, he, hv⟩
          · exact Or.inl hl
          · exact Or.inr ⟨e, List.mem_cons_of_mem _ he, hv⟩

/-- Witness for C8: the single published entry of the empty-ip run traces
back to the input record that supplied the empty ip. -/
theorem C8_published_values_witness :
    (⟨"ipv4-addr", "", ["dshield"]⟩ : PublishedObject)
        ∈ (Output.mk ∅ ([] : List PublishedObject)).objects ∨
    ∃ e ∈ [RawRecord.mk (some "") none],
      e.ip = some (PublishedObject.mk "ipv4-addr" "" ["dshield"]).value :=
  C8_published_values envOk 0 [⟨some "", none⟩] initState ⟨∅, []⟩
    ⟨∅, [⟨"ipv4-addr", "", ["dshield"]⟩]⟩
    (process_entries envOk 0 initState [⟨some "", none⟩] ⟨∅, []⟩).2
    rfl ⟨"ipv4-addr", "", ["dshield"]⟩ (by decide)

/-! ### At-most-once label creation (claim C2) -/

/-- The tag registry invariant: every tag name the run has asked the store
to create is covered (case-insensitively) by a label now present in the
store, and no two creation calls were ever issued for the same
case-normalized name. -/
def TagInv (st : ConnState) : Prop :=
  (∀ t ∈ labelCreatesOf st.events, ∃ l ∈ st.storeLabels, lowerStr l.value = lowerStr t) ∧
  ((labelCreatesOf st.events).map lowerStr).Nodup

/-- No label creation call raises in this environment. -/
def noCreateFailure (env : Env) : Prop := ∀ n, env.labelCreateFail n = false

theorem tagInv_mono (st st' : ConnState) (h : TagInv st)
    (hev : labelCreatesOf st'.events = labelCreatesOf st.events)
    (hlab : ∀ l ∈ st.storeLabels, l ∈ st'.storeLabels) : TagInv st' := by
  obtain ⟨h1, h2⟩ := h
  constructor
  · intro t ht
    rw [hev] at ht
    obtain ⟨l, hl, hh⟩ := h1 t ht
    exact ⟨l, hlab l hl, hh⟩
  · rw [hev]; exact h2

theorem tagInv_create (st : ConnState) (h : TagInv st) (t : String) (lid : Nat)
    (hnew : ∀ l ∈ st.storeLabels, lowerStr l.value ≠ lowerStr t)
    (st' : ConnState)
    (hev : labelCreatesOf st'.events = labelCreatesOf st.events ++ [t])
    (hlab : st'.storeLabels = st.storeLabels ++ [⟨t, lid⟩]) : TagInv st' := by
  constructor
  · intro t' ht'
    rw [hev] at ht'
    rcases List.mem_append.mp ht' with hin | hlast
    · obtain ⟨l, hl, hh⟩ := h.1 t' hin
      exact ⟨l, by rw [hlab]; exact List.mem_append_left _ hl, hh⟩
    · have ht : t' = t := by simpa using hlast
      subst ht
      exact ⟨⟨t', lid⟩, by rw [hlab]; exact List.mem_append_right _ (by simp), rfl⟩
  · rw [hev, List.map_append]
    rw [List.nodup_append]
    refine ⟨h.2, List.nodup_singleton _, ?_⟩
    intro a ha hb
    have hab : a = lowerStr t := by simpa using hb
    subst hab
    obtain ⟨t', ht', ha'⟩ := List.mem_map.mp ha
    obtain ⟨l, hl, hh⟩ := h.1 t' ht'
    exact hnew l hl (by rw [hh, ha'])

theorem tagInv_get_label (env : Env) (st : ConnState) (t c : String)
    (hcf : noCreateFailure env) (h : TagInv st) : TagInv (get_label env st t c).2 := by
  unfold get_label label_list label_create
  cases hf : env.labelListFail st.countLabelList with
  | true =>
    refine tagInv_mono st _ h ?_ ?_ <;> simp [hf]
  | false =>
    simp only [hf, Bool.false_eq_true, if_false]
    cases hfind : (st.storeLabels.filter
        (fun l => lowerStr l.value == lowerStr t)).find?
        (fun l => lowerStr l.value == lowerStr t) with
    | some l =>
      simp only [hfind]
      refine tagInv_mono st _ h ?_ ?_ <;> simp
    | none =>
      simp only [hfind, hcf st.countLabelCreate, Bool.false_eq_true, if_false]
      have hnew : ∀ l ∈ st.storeLabels, lowerStr l.value ≠ lowerStr t := by
        intro l hl hcontra
        have hp : (fun l => lowerStr l.value == lowerStr t) l = true := by
          simp [hcontra]
        have hmem : l ∈ st.storeLabels.filter
            (fun l => lowerStr l.value == lowerStr t) :=
          List.mem_filter.mpr ⟨hl, hp⟩
        exact absurd hp (List.find?_eq_none.mp hfind l hmem)
      refine tagInv_create st h t st.nextLabelId hnew _ ?_ ?_ <;> simp

theorem tagInv_attach (env : Env) (obsId : Nat) (v : String)
    (hcf : noCreateFailure env) :
    ∀ (labels : List String) (st : ConnState),
      TagInv st → TagInv (attach_labels env obsId v st labels) := by
  intro labels
  induction labels with
  | nil => intro st h; exact h
  | cons label rest ih =>
    intro st h
    have hg := tagInv_get_label env st label "#ffa500" hcf h
    rcases hq : get_label env st label "#ffa500" with ⟨r, st1⟩
    rw [hq] at hg
    cases r with
    | error u =>
      simp only [attach_labels, hq]
      apply ih
      refine tagInv_mono st1 _ hg ?_ ?_ <;> simp [emit, log_error]
    | ok labelId =>
      simp only [attach_labels, hq]
      rcases ha : add_label env (emit st1 .sleep) obsId labelId with ⟨r2, st3⟩
      have hadd := add_label_state env (emit st1 .sleep) obsId labelId
      rw [ha] at hadd
      obtain ⟨haev, _, halab⟩ := hadd
      simp only [emit] at haev halab
      have hst3 : TagInv st3 := by
        refine tagInv_mono st1 st3 hg ?_ ?_
        · rw [haev]; simp
        · rw [halab]; exact fun l hl => hl
      cases r2 with
      | error u2 =>
        apply ih
        refine tagInv_mono st3 _ hst3 ?_ ?_ <;> simp [emit, log_error]
      | ok u2 => exact ih st3 hst3

theorem tagInv_create_observable (env : Env) (st : ConnState)
    (k v d ty : String) (ext : Nat) (labels : List String)
    (hcf : noCreateFailure env) (h : TagInv st) :
    TagInv (create_observable env st k v d ty ext labels).2 := by
  unfold create_observable
  cases ho : env.obsCreateOutcome st.countObsCreate with
  | exn =>
    simp only [ho]
    refine tagInv_mono st _ h ?_ ?_ <;> simp
  | retNone =>
    simp only [ho]
    refine tagInv_mono st _ h ?_ ?_ <;> simp
  | ok =>
    simp only [ho]
    apply tagInv_attach env _ v hcf labels
    refine tagInv_mono st _ h ?_ ?_ <;> simp

theorem tagInv_process (env : Env) (ext : Nat) (hcf : noCreateFailure env) :
    ∀ (data : List RawRecord) (st : ConnState) (output : Output),
      TagInv st → TagInv (process_entries env ext st data output).2 := by
  intro data
  induction data with
  | nil => intro st output h; exact h
  | cons entry rest ih =>
    intro st output h
    obtain ⟨eip, ed⟩ := entry
    cases eip with
    | none => exact ih st output h
    | some ip =>
      have hco := tagInv_create_observable env st "IPv4-Addr.value" ip
        ("DShield Intel Feed entry for " ++ ip) "IPv4-Addr" ext
        (entry_labels ⟨some ip, ed⟩) hcf h
      simp only [process_entries]
      rcases hc : create_observable env st "IPv4-Addr.value" ip
          ("DShield Intel Feed entry for " ++ ip) "IPv4-Addr" ext
          (entry_labels ⟨some ip, ed⟩) with ⟨r, st1⟩
      rw [hc] at hco
      cases r with
      | error u => exact hco
      | ok o =>
        cases o with
        | some n => exact ih st1 _ hco
        | none => exact ih st1 output hco

theorem tagInv_fetch (fo : FetchOutcome) (st : ConnState) (h : TagInv st) :
    TagInv (fetch_dshield_data fo st).2 := by
  cases fo with
  | success data => exact h
  | requestFailure => refine tagInv_mono st _ h ?_ ?_ <;> simp [fetch_dshield_data, log_error, emit]
  | parseFailure => refine tagInv_mono st _ h ?_ ?_ <;> simp [fetch_dshield_data, log_error, emit]
  | otherFailure => refine tagInv_mono st _ h ?_ ?_ <;> simp [fetch_dshield_data, log_error, emit]

theorem tagInv_create_opencti_objects (env : Env) (st : ConnState)
    (data : List RawRecord) (tm : Bool)
    (hcf : noCreateFailure env) (h : TagInv st) :
    TagInv (create_opencti_objects env st data tm).2 := by
  simp only [create_opencti_objects, ext_ref_create]
  apply tagInv_process env _ hcf data _ _
  refine tagInv_mono st _ h ?_ ?_ <;> simp [emit]

theorem tagInv_run (env : Env) (fo : FetchOutcome) (st : ConnState) (tm : Bool)
    (hcf : noCreateFailure env) (h : TagInv st) : TagInv (run env fo st tm) := by
  have hfetch := tagInv_fetch fo st h
  unfold run
  cases hemp : (fetch_dshield_data fo st).1.isEmpty with
  | true =>
    simp only [hemp, if_true]
    refine tagInv_mono _ _ hfetch ?_ ?_ <;> simp [log_error, emit]
  | false =>
    simp only [hemp, Bool.false_eq_true, if_false]
    have hcoo := tagInv_create_opencti_objects env (fetch_dshield_data fo st).2
      (fetch_dshield_data fo st).1 tm hcf hfetch
    rcases hc : create_opencti_objects env (fetch_dshield_data fo st).2
        (fetch_dshield_data fo st).1 tm with ⟨r, st2⟩
    rw [hc] at hcoo
    cases r with
    | error u =>
      refine tagInv_mono st2 _ hcoo ?_ ?_ <;> simp [log_error, emit]
    | ok output =>
      unfold save_to_json
      cases hs : env.saveFail with
      | true =>
        simp only [hs, if_true]
        refine tagInv_mono st2 _ hcoo ?_ ?_ <;> simp [log_error, emit]
      | false =>
        simp only [hs, Bool.false_eq_true, if_false]
        refine tagInv_mono st2 _ hcoo ?_ ?_ <;> simp

/-- C2: a resolution for a TagName that already has a case-insensitive
match in the store issues no creation call and, when the existence check
does not raise, returns the handle of an existing matching label; and over
a whole run (creation calls never raising), the case-normalized names sent
to the creation call are pairwise distinct — the store is asked to create
each TagName at most once, however many records reference it. -/
theorem C2_label_created_once :
    (∀ (env : Env) (st : ConnState) (t c : String),
       (∃ l ∈ st.storeLabels, lowerStr l.value = lowerStr t) →
       labelCreatesOf (get_label env st t c).2.events = labelCreatesOf st.events ∧
       (env.labelListFail st.countLabelList = false →
        ∃ l ∈ st.storeLabels, lowerStr l.value = lowerStr t ∧
          (get_label env st t c).1 = Except.ok l.id)) ∧
    (∀ (env : Env) (fo : FetchOutcome) (args : Args),
       noCreateFailure env →
       ((labelCreatesOf (main env fo args).2.events).map lowerStr).Nodup) := by
  constructor
  · intro env st t c hex
    unfold get_label label_list label_create
    cases hf : env.labelListFail st.countLabelList with
    | true =>
      constructor
      · simp [hf]
      · intro hff
        simp at hff
    | false =>
      obtain ⟨l0, hl0, hm0⟩ := hex
      have hp0 : (fun l => lowerStr l.value == lowerStr t) l0 = true := by simp [hm0]
      have hmemf : l0 ∈ st.storeLabels.filter
          (fun l => lowerStr l.value == lowerStr t) :=
        List.mem_filter.mpr ⟨hl0, hp0⟩
      cases hfind : (st.storeLabels.filter
          (fun l => lowerStr l.value == lowerStr t)).find?
          (fun l => lowerStr l.value == lowerStr t) with
      | none => exact absurd hp0 (List.find?_eq_none.mp hfind l0 hmemf)
      | some l =>
        simp only [hf, Bool.false_eq_true, if_false, hfind]
        constructor
        · simp
        · intro hff
          have hin := List.mem_of_find?_eq_some hfind
          have hpl := List.find?_some hfind
          exact ⟨l, (List.mem_filter.mp hin).1, by simpa using hpl, rfl⟩
  · intro env fo args hcf
    have h0 : TagInv (connector_init initState) := by
      constructor
      · intro t ht
        simp [connector_init, emit, initState] at ht
      · simp [connector_init, emit, initState]
    exact (tagInv_run env fo (connector_init initState) args.test hcf h0).2

/-- Witness for C2: a store already holding a label matching "Malware"
case-insensitively, and a full run over two records sharing a tag. -/
theorem C2_label_created_once_witness :
    (labelCreatesOf (get_label envOk
        { initState with storeLabels := [⟨"malware", 7⟩] } "Malware" "#ffa500").2.events
        = labelCreatesOf ({ initState with storeLabels := [⟨"malware", 7⟩] } : ConnState).events ∧
     (envOk.labelListFail ({ initState with storeLabels := [⟨"malware", 7⟩] } : ConnState).countLabelList = false →
      ∃ l ∈ ({ initState with storeLabels := [⟨"malware", 7⟩] } : ConnState).storeLabels,
        lowerStr l.value = lowerStr "Malware" ∧
        (get_label envOk { initState with storeLabels := [⟨"malware", 7⟩] } "Malware" "#ffa500").1
          = Except.ok l.id)) ∧
    ((labelCreatesOf (main envOk
        (.success [⟨some "1.1.1.1", some "x"⟩, ⟨some "2.2.2.2", some "x"⟩])
        ⟨false, false⟩).2.events).map lowerStr).Nodup :=
  ⟨C2_label_created_once.1 envOk { initState with storeLabels := [⟨"malware", 7⟩] }
      "Malware" "#ffa500" ⟨⟨"malware", 7⟩, by decide, by decide⟩,
   C2_label_created_once.2 envOk
     (.success [⟨some "1.1.1.1", some "x"⟩, ⟨some "2.2.2.2", some "x"⟩])
     ⟨false, false⟩ (fun _ => rfl)⟩

/-! ### The test-mode flag (claim C4) -/

/-- C4: the test flag is accepted but never consulted — a run with the
flag set is byte-for-byte the same as one without it, and in particular it
still issues the organization, external-reference, observable-creation and
label calls against the store; only the debug flag changes anything, and
all it changes is the log level. -/
theorem C4_test_mode_ignored :
    (∀ env fo d t1 t2, (main env fo ⟨t1, d⟩).2 = (main env fo ⟨t2, d⟩).2) ∧
    (Event.orgCreate "DShield" ∈ (main envOk (.success [⟨some "1.2.3.4", none⟩]) ⟨true, false⟩).2.events ∧
     Event.extRefCreate "dshield.org" "https://dshield.org/"
       ∈ (main envOk (.success [⟨some "1.2.3.4", none⟩]) ⟨true, false⟩).2.events ∧
     obsCreatesOf (main envOk (.success [⟨some "1.2.3.4", none⟩]) ⟨true, false⟩).2.events = ["1.2.3.4"] ∧
     listQueriesOf (main envOk (.success [⟨some "1.2.3.4", none⟩]) ⟨true, false⟩).2.events = ["dshield"] ∧
     labelCreatesOf (main envOk (.success [⟨some "1.2.3.4", none⟩]) ⟨true, false⟩).2.events = ["dshield"] ∧
     (main envOk (.success [⟨some "1.2.3.4", none⟩]) ⟨true, false⟩).1 = LogLevel.info ∧
     (main envOk (.success [⟨some "1.2.3.4", none⟩]) ⟨true, true⟩).1 = LogLevel.debug) := by
  exact ⟨fun _ _ _ _ _ => rfl, by decide⟩

end DShield
